import Mathlib

/-!
Shallow embedding of `pkg/command/migrate/migrate.go` from
`kn-plugin-migration`: the revision replay engine (`migrateRevision`),
the configuration fetch loop (`getConfig`), the per-service migration
steps of the command's `Run` body, the helpers `createService`,
`getOrCreateNamespace`, `deleteAllServices`, and the top-level driver
sequencing.

External API calls (Kubernetes / Knative CRUD) are modelled as oracles:
records of response functions, indexed by call count where the source
calls the same operation repeatedly.  Every embedded function returns,
next to its outcome, the list of API calls it performed (its trace), so
that frame conditions ("nothing else was mutated") can be stated.
Loops whose termination depends on the oracle are given explicit fuel;
`Outcome.outOfFuel` marks an execution that is still looping when the
fuel runs out.
-/

namespace KnMigrate

/-- Classification of API errors, as the source tests them with
`api_errors.IsNotFound` / `api_errors.IsConflict`; `other` is every
remaining error. -/
inductive ErrKind where
  | notFound
  | conflict
  | other
deriving DecidableEq, Repr

/-- `var MaxGetRetries = 16` (migrate.go line 47). -/
def MaxGetRetries : Nat := 16

/-- `var MaxUpdateRetries = 16` (migrate.go line 48). -/
def MaxUpdateRetries : Nat := 16

/-- A revision, reduced to what `migrateRevision` touches: its name, its
label map (an `Option` so that Go's nil map is distinguished from an
empty one), and an opaque `rest` standing for every other field. -/
structure Revision where
  name : String
  labels : Option (List (String × String))
  rest : String
deriving DecidableEq, Repr

/-- The label key `serving.knative.dev/configurationGeneration`
hard-coded at migrate.go lines 359-360. -/
def generationLabel : String := "serving.knative.dev/configurationGeneration"

/-- First-match lookup in an association-list label map, the embedding of
reading a Go map entry. -/
def lookupLabel : List (String × String) → String → Option String
  | [], _ => none
  | (k, v) :: ls, key => if k = key then some v else lookupLabel ls key

/-- Go read `m[key]` with the zero value `""` for a missing key; reading
from a nil map also yields the zero value. -/
def readLabel (labels : Option (List (String × String))) (key : String) : String :=
  match labels with
  | none => ""
  | some ls => (lookupLabel ls key).getD ""

/-- Go assignment `m[key] = v` on a non-nil map: replace the entry if the
key is present, append it otherwise. -/
def setLabel : List (String × String) → String → String → List (String × String)
  | [], key, v => [(key, v)]
  | (k, w) :: ls, key, v =>
    if k = key then (k, v) :: ls else (k, w) :: setLabel ls key v

/-- A Knative configuration, reduced to the `UID` the source reads. -/
structure Config where
  uid : String
deriving DecidableEq, Repr

/-- The destination service object, reduced to the one status field the
source reads after re-fetching it: `Status.LatestCreatedRevisionName`. -/
structure DService where
  latestCreatedRevisionName : String
deriving DecidableEq, Repr

/-- A configmap, reduced to an opaque payload. -/
structure ConfigMapData where
  payload : String
deriving DecidableEq, Repr

/-- One API call performed by the engine. `src`/`dest` say which cluster
the call went to. -/
inductive Event where
  | srcGetConfigMap (name : String)
  | destCreateConfigMap (name : String)
  | destServiceExistsCheck (name : String)
  | destDeleteService (name : String)
  | destCreateService (name : String)
  | destGetService (name : String)
  | destGetConfig (name : String)
  | srcListRevisions (name : String)
  | destGetRevision (name : String)
  | destUpdateRevision (r : Revision)
  | destCreateRevision (name : String) (uid : String)
  | srcListServices
  | srcDeleteService (name : String)
  | destGetNamespace (name : String)
  | destCreateNamespace (name : String)
deriving DecidableEq, Repr

/-- Errors surfaced by the migration steps: a classified API error, or
the `fmt.Errorf` "already exists" error built in `createService`. -/
inductive MErr where
  | api (e : ErrKind)
  | alreadyExists (name : String)
deriving DecidableEq, Repr

/-- Result of running an embedded step: normal return, error return,
a Go runtime panic (assignment to an entry of a nil map), or fuel
exhaustion of the embedding (the source is still looping). -/
inductive Outcome where
  | ok
  | err (e : MErr)
  | panicNilMap
  | outOfFuel
deriving DecidableEq, Repr

/-- Oracle for the calls `migrateRevision` makes on the destination
client.  `getRevision`/`updateRevision` are indexed by how many calls of
that operation happened before, since the loop re-issues them. -/
structure RevClient where
  createRevision : Option ErrKind
  getRevision : Nat → String → Except ErrKind Revision
  updateRevision : Nat → Option ErrKind

/-- The `for { ... }` loop of `migrateRevision` (migrate.go lines
345-374): fetch the destination revision (retrying a NotFound while
`getRetries < MaxGetRetries`), overwrite its
`configurationGeneration` label with the source revision's (a panic if
the fetched label map is nil), and update it (retrying a Conflict while
`updateRetries < MaxUpdateRetries`).  `getIdx`/`updIdx` count the calls
issued so far; the final argument is fuel, one unit per iteration. -/
def reconcileLoop (c : RevClient) (revisionS : Revision)
    (getIdx updIdx getRetries updateRetries : Nat) :
    Nat → Outcome × List Event
  | 0 => (.outOfFuel, [])
  | fuel + 1 =>
    match c.getRevision getIdx revisionS.name with
    | .error e =>
      if e = ErrKind.notFound ∧ getRetries < MaxGetRetries then
        let r := reconcileLoop c revisionS (getIdx + 1) updIdx (getRetries + 1) updateRetries fuel
        (r.1, .destGetRevision revisionS.name :: r.2)
      else
        (.err (.api e), [.destGetRevision revisionS.name])
    | .ok revision =>
      match revision.labels with
      | none => (.panicNilMap, [.destGetRevision revisionS.name])
      | some ls =>
        let sourceRevisionGeneration := readLabel revisionS.labels generationLabel
        let revision' : Revision :=
          { revision with labels := some (setLabel ls generationLabel sourceRevisionGeneration) }
        match c.updateRevision updIdx with
        | some e =>
          if e = ErrKind.conflict ∧ updateRetries < MaxUpdateRetries then
            let r := reconcileLoop c revisionS (getIdx + 1) (updIdx + 1) getRetries (updateRetries + 1) fuel
            (r.1, .destGetRevision revisionS.name :: .destUpdateRevision revision' :: r.2)
          else
            (.err (.api e), [.destGetRevision revisionS.name, .destUpdateRevision revision'])
        | none =>
          (.ok, [.destGetRevision revisionS.name, .destUpdateRevision revision'])

/-- Fuel that provably suffices for `reconcileLoop` started with zeroed
retry counters: every iteration either returns or increments one of the
two bounded counters. -/
def revisionLoopFuel : Nat := MaxGetRetries + MaxUpdateRetries + 1

/-- `migrateRevision` (migrate.go lines 335-377): a revision whose name
differs from the captured latest-created-revision name is created via
`CreateRevision` (any error returned as is); a revision whose name
equals it goes through the reconcile loop. -/
def migrateRevision (c : RevClient) (revisionS : Revision) (configUuid : String)
    (latestCreatedRevisionName : String) : Outcome × List Event :=
  if revisionS.name ≠ latestCreatedRevisionName then
    match c.createRevision with
    | some e => (.err (.api e), [.destCreateRevision revisionS.name configUuid])
    | none => (.ok, [.destCreateRevision revisionS.name configUuid])
  else
    reconcileLoop c revisionS 0 0 0 0 revisionLoopFuel

/-- The `for { ... }` loop of `getConfig` (migrate.go lines 379-394).
The source declares `retries := 0` and, on a NotFound with
`retries < MaxGetRetries`, sleeps and `continue`s WITHOUT incrementing
`retries` — the embedding reproduces that faithfully, so the recursive
call passes `retries` unchanged.  `none` as first component means the
fuel ran out with the loop still running. -/
def getConfigLoop (serviceName : String) (resp : Nat → Except ErrKind Config)
    (idx retries : Nat) : Nat → Option (Except ErrKind Config) × List Event
  | 0 => (none, [])
  | fuel + 1 =>
    match resp idx with
    | .error e =>
      if e = ErrKind.notFound ∧ retries < MaxGetRetries then
        let r := getConfigLoop serviceName resp (idx + 1) retries fuel
        (r.1, .destGetConfig serviceName :: r.2)
      else
        (some (.error e), [.destGetConfig serviceName])
    | .ok config => (some (.ok config), [.destGetConfig serviceName])

/-- `generateConfigmapName` (migrate.go lines 396-398). -/
def generateConfigmapName (serviceName : String) : String :=
  serviceName ++ "-config"

/-- Oracle for the destination namespace calls of
`getOrCreateNamespace`: the response of `Namespaces().Get` (an error or
success) and of `Namespaces().Create`. -/
structure NsClient where
  getNamespaceD : Option ErrKind
  createNamespaceD : Option ErrKind

/-- `getOrCreateNamespace` (migrate.go lines 240-261), translated
literally: `namespaceExists` starts true and is cleared when the Get
error is a NotFound, but the subsequent `if err != nil { return err }`
fires for EVERY non-nil error, a NotFound included, so the
`!namespaceExists` create branch is reachable only when the Get
succeeded — that is, never. -/
def getOrCreateNamespace (c : NsClient) (ns : String) : Option ErrKind × List Event :=
  let getErr := c.getNamespaceD
  let namespaceExists : Bool := !(getErr == some ErrKind.notFound)
  match getErr with
  | some e => (some e, [.destGetNamespace ns])
  | none =>
    if !namespaceExists then
      match c.createNamespaceD with
      | some e => (some e, [.destGetNamespace ns, .destCreateNamespace ns])
      | none => (none, [.destGetNamespace ns, .destCreateNamespace ns])
    else
      (none, [.destGetNamespace ns])

/-- Oracle for one service's migration: the destination-side calls of
`createService` plus the per-step calls of the `Run` loop body.
`getConfigD` is indexed by attempt; `revClient i` serves the i-th
replayed revision. -/
structure SvcClient where
  getConfigMapS : Except ErrKind ConfigMapData
  createConfigMapD : Option ErrKind
  serviceExistsD : Except ErrKind Bool
  deleteServiceD : Option ErrKind
  createServiceD : Option ErrKind
  getServiceD : Except ErrKind DService
  getConfigD : Nat → Except ErrKind Config
  listRevisionsS : Except ErrKind (List Revision)
  revClient : Nat → RevClient

/-- `createService` (migrate.go lines 291-312).  The source calls
`migrationClient.DeleteService(service.Name)` WITHOUT assigning its
return value; the `if err != nil` that follows re-checks the (nil)
error of the earlier `ServiceExists` call, so a delete failure is
silently dropped and `CreateService` is attempted regardless — the
embedding reproduces that by not inspecting `deleteServiceD`. -/
def createService (c : SvcClient) (serviceName : String) (force : Bool) :
    Option MErr × List Event :=
  match c.serviceExistsD with
  | .error e => (some (.api e), [.destServiceExistsCheck serviceName])
  | .ok svcExists =>
    if svcExists then
      if !force then
        (some (.alreadyExists serviceName), [.destServiceExistsCheck serviceName])
      else
        match c.createServiceD with
        | some e =>
          (some (.api e),
            [.destServiceExistsCheck serviceName, .destDeleteService serviceName,
              .destCreateService serviceName])
        | none =>
          (none,
            [.destServiceExistsCheck serviceName, .destDeleteService serviceName,
              .destCreateService serviceName])
    else
      match c.createServiceD with
      | some e => (some (.api e), [.destServiceExistsCheck serviceName, .destCreateService serviceName])
      | none => (none, [.destServiceExistsCheck serviceName, .destCreateService serviceName])

/-- The revision replay loop of the `Run` body (migrate.go lines
184-193): each source revision goes through `migrateRevision` with the
SAME `latest` name captured from the single `GetService` call; the first
non-ok outcome aborts (the source calls `os.Exit(1)`). -/
def replayRevisions (revCs : Nat → RevClient) (uid latest : String) :
    List Revision → Nat → Outcome × List Event
  | [], _ => (.ok, [])
  | r :: rs, i =>
    let m := migrateRevision (revCs i) r uid latest
    match m.1 with
    | .ok =>
      let rest := replayRevisions revCs uid latest rs (i + 1)
      (rest.1, m.2 ++ rest.2)
    | o => (o, m.2)

/-- One iteration of the `Run` service loop (migrate.go lines 138-195):
source configmap lookup (NotFound means skip; any hit is copied to the
destination BEFORE the service-existence check), `createService`,
re-fetch of the destination service for its latest-created-revision
name, `getConfig` for the configuration UID, listing the source
revisions, and the replay loop.  Every error exits (modelled as an
`err` outcome). -/
def migrateOneService (c : SvcClient) (serviceName : String) (force : Bool)
    (cfgFuel : Nat) : Outcome × List Event :=
  let cmName := generateConfigmapName serviceName
  let cmStep : Option MErr × List Event :=
    match c.getConfigMapS with
    | .error e =>
      if e = ErrKind.notFound then (none, [.srcGetConfigMap cmName])
      else (some (.api e), [.srcGetConfigMap cmName])
    | .ok _cm =>
      match c.createConfigMapD with
      | some e => (some (.api e), [.srcGetConfigMap cmName, .destCreateConfigMap cmName])
      | none => (none, [.srcGetConfigMap cmName, .destCreateConfigMap cmName])
  match cmStep.1 with
  | some e => (.err e, cmStep.2)
  | none =>
    let cs := createService c serviceName force
    match cs.1 with
    | some e => (.err e, cmStep.2 ++ cs.2)
    | none =>
      match c.getServiceD with
      | .error e => (.err (.api e), cmStep.2 ++ cs.2 ++ [.destGetService serviceName])
      | .ok serviceD =>
        let gc := getConfigLoop serviceName c.getConfigD 0 0 cfgFuel
        let tr3 := cmStep.2 ++ cs.2 ++ [.destGetService serviceName] ++ gc.2
        match gc.1 with
        | none => (.outOfFuel, tr3)
        | some (.error e) => (.err (.api e), tr3)
        | some (.ok config) =>
          match c.listRevisionsS with
          | .error e => (.err (.api e), tr3 ++ [.srcListRevisions serviceName])
          | .ok revisionsS =>
            let rp := replayRevisions c.revClient config.uid
              serviceD.latestCreatedRevisionName revisionsS 0
            (rp.1, tr3 ++ [.srcListRevisions serviceName] ++ rp.2)

/-- The deletion loop of `deleteAllServices` (migrate.go lines 323-330):
delete each listed source service, stopping at the first error. -/
def deleteServicesLoop (delResp : String → Option ErrKind) :
    List String → Option ErrKind × List Event
  | [] => (none, [])
  | s :: ss =>
    match delResp s with
    | some e => (some e, [.srcDeleteService s])
    | none =>
      let r := deleteServicesLoop delResp ss
      (r.1, .srcDeleteService s :: r.2)

/-- `deleteAllServices` (migrate.go lines 314-333): without the delete
flag it only prints and returns nil; with it, it lists the source
services and deletes each in turn. -/
def deleteAllServices (listResp : Except ErrKind (List String))
    (delResp : String → Option ErrKind) (del : Bool) :
    Option ErrKind × List Event :=
  if !del then (none, [])
  else
    match listResp with
    | .error e => (some e, [.srcListServices])
    | .ok services =>
      let r := deleteServicesLoop delResp services
      (r.1, .srcListServices :: r.2)

/-- Oracle for the whole `Run` body: the initial source `ListService`,
a per-service client, and the second `ListService` plus per-name delete
responses used by `deleteAllServices`. -/
structure DriverClient where
  listServicesS : Except ErrKind (List String)
  svcClient : Nat → SvcClient
  listServicesS2 : Except ErrKind (List String)
  deleteServiceS : String → Option ErrKind

/-- The service loop of `Run` (migrate.go lines 138-195): migrate each
source service in sequence, aborting at the first non-ok outcome. -/
def migrateAllServices (svcC : Nat → SvcClient) (force : Bool) (cfgFuel : Nat) :
    List String → Nat → Outcome × List Event
  | [], _ => (.ok, [])
  | s :: ss, i =>
    let m := migrateOneService (svcC i) s force cfgFuel
    match m.1 with
    | .ok =>
      let rest := migrateAllServices svcC force cfgFuel ss (i + 1)
      (rest.1, m.2 ++ rest.2)
    | o => (o, m.2)

/-- The mutating skeleton of the command's `Run` body (migrate.go lines
66-209): ensure the destination namespace, list the source services,
migrate each, and only when every one succeeded run
`deleteAllServices`.  (The printing calls are pure reads and are not
modelled.) -/
def runDriver (nsC : NsClient) (dc : DriverClient) (namespaceD : String)
    (force del : Bool) (cfgFuel : Nat) : Outcome × List Event :=
  let nsr := getOrCreateNamespace nsC namespaceD
  match nsr.1 with
  | some e => (.err (.api e), nsr.2)
  | none =>
    match dc.listServicesS with
    | .error e => (.err (.api e), nsr.2 ++ [.srcListServices])
    | .ok services =>
      let pass := migrateAllServices dc.svcClient force cfgFuel services 0
      match pass.1 with
      | .ok =>
        let dr := deleteAllServices dc.listServicesS2 dc.deleteServiceS del
        let outcome : Outcome := match dr.1 with
          | some e => .err (.api e)
          | none => .ok
        (outcome, nsr.2 ++ [.srcListServices] ++ pass.2 ++ dr.2)
      | o => (o, nsr.2 ++ [.srcListServices] ++ pass.2)

/-- Events that delete a service from the source cluster — the only
source-cluster mutations anywhere in the program. -/
def isSrcDelete : Event → Bool
  | .srcDeleteService _ => true
  | _ => false

/-- Events that mutate the destination cluster. -/
def isDestMutation : Event → Bool
  | .destCreateConfigMap _ => true
  | .destDeleteService _ => true
  | .destCreateService _ => true
  | .destCreateRevision _ _ => true
  | .destUpdateRevision _ => true
  | .destCreateNamespace _ => true
  | _ => false

/-- `CreateRevision` calls. -/
def isCreateRevEvent : Event → Bool
  | .destCreateRevision _ _ => true
  | _ => false

/-- `GetRevision` calls. -/
def isGetRevEvent : Event → Bool
  | .destGetRevision _ => true
  | _ => false

/-- `UpdateRevision` calls. -/
def isUpdateRevEvent : Event → Bool
  | .destUpdateRevision _ => true
  | _ => false

/-- Sample source revision `foo-00001`, generation 1 (not the latest). -/
def revEarly : Revision :=
  { name := "foo-00001", labels := some [(generationLabel, "1")], rest := "spec-1" }

/-- Sample source revision `foo-00002`, generation 2, sharing its name
with the destination's auto-created latest revision. -/
def revLatest : Revision :=
  { name := "foo-00002", labels := some [(generationLabel, "2")], rest := "spec-2" }

/-- The destination's auto-created copy of `foo-00002` as `GetRevision`
returns it: generation still 1, plus an unrelated label. -/
def revAutoCreated : Revision :=
  { name := "foo-00002", labels := some [("app", "foo"), (generationLabel, "1")],
    rest := "spec-auto" }

/-- Revision client whose `GetRevision` answers NotFound on every
attempt. -/
def cAlwaysNotFound : RevClient :=
  { createRevision := none
    getRevision := fun _ _ => .error ErrKind.notFound
    updateRevision := fun _ => none }

/-- Revision client for the happy path: creation succeeds, fetching
returns the auto-created revision, updating succeeds. -/
def cHappy : RevClient :=
  { createRevision := none
    getRevision := fun _ _ => .ok revAutoCreated
    updateRevision := fun _ => none }

/-- Revision client whose `CreateRevision` fails with NotFound. -/
def cCreateNotFound : RevClient :=
  { createRevision := some ErrKind.notFound
    getRevision := fun _ _ => .ok revAutoCreated
    updateRevision := fun _ => none }

/-- Revision client whose `GetRevision` succeeds but returns a revision
carrying a nil label map. -/
def cNilLabels : RevClient :=
  { createRevision := none
    getRevision := fun _ _ => .ok { name := "foo-00002", labels := none, rest := "spec-auto" }
    updateRevision := fun _ => none }

/-- `GetConfig` responses that answer NotFound forever. -/
def cfgAlwaysNotFound : Nat → Except ErrKind Config :=
  fun _ => .error ErrKind.notFound

/-- Service client for the happy path of one service's migration: no
source configmap, service absent on the destination, every call
succeeds, source history = `[revEarly, revLatest]`. -/
def svcHappy : SvcClient :=
  { getConfigMapS := .error ErrKind.notFound
    createConfigMapD := none
    serviceExistsD := .ok false
    deleteServiceD := none
    createServiceD := none
    getServiceD := .ok { latestCreatedRevisionName := "foo-00002" }
    getConfigD := fun _ => .ok { uid := "uid-1" }
    listRevisionsS := .ok [revEarly, revLatest]
    revClient := fun _ => cHappy }

/-- Service client where the destination already has the service, no
force: the source DOES have a configmap, which the loop body copies to
the destination before the existence check. -/
def svcExistsWithConfigMap : SvcClient :=
  { svcHappy with
    getConfigMapS := .ok { payload := "cm-data" }
    serviceExistsD := .ok true }

/-- Service client where the destination already has the service, no
force, and the source has no configmap. -/
def svcExistsNoConfigMap : SvcClient :=
  { svcHappy with serviceExistsD := .ok true }

/-- Service client where the destination already has the service, force
is used, and the destination-side delete fails. -/
def svcExistsDeleteFails : SvcClient :=
  { svcHappy with
    serviceExistsD := .ok true
    deleteServiceD := some ErrKind.other }

/-- Namespace client whose Get succeeds (namespace already present). -/
def nsFound : NsClient :=
  { getNamespaceD := none, createNamespaceD := none }

/-- Namespace client whose Get answers NotFound (namespace missing). -/
def nsMissing : NsClient :=
  { getNamespaceD := some ErrKind.notFound, createNamespaceD := none }

/-- Driver client for a fully successful run over one source service
`foo`, with the delete responses all succeeding. -/
def dcHappy : DriverClient :=
  { listServicesS := .ok ["foo"]
    svcClient := fun _ => svcHappy
    listServicesS2 := .ok ["foo"]
    deleteServiceS := fun _ => none }

/-! ## Supporting lemmas -/

theorem countP_replicate_true {α} (p : α → Bool) (a : α) (hp : p a = true) (n : Nat) :
    (List.replicate n a).countP p = n := by
  induction n with
  | zero => simp
  | succ k ih => simp [List.replicate_succ, List.countP_cons, hp, ih]

theorem lookupLabel_setLabel_self (ls : List (String × String)) (k v : String) :
    lookupLabel (setLabel ls k v) k = some v := by
  induction ls with
  | nil => simp [setLabel, lookupLabel]
  | cons p ps ih =>
    obtain ⟨a, b⟩ := p
    by_cases h : a = k
    · simp [setLabel, h, lookupLabel]
    · simp [setLabel, h, lookupLabel, ih]

theorem lookupLabel_setLabel_other (ls : List (String × String)) (k v k' : String)
    (h : k' ≠ k) : lookupLabel (setLabel ls k v) k' = lookupLabel ls k' := by
  induction ls with
  | nil =>
    simp only [setLabel, lookupLabel]
    rw [if_neg (fun hh => h hh.symm)]
  | cons p ps ih =>
    obtain ⟨a, b⟩ := p
    by_cases ha : a = k
    · subst ha
      simp only [setLabel, if_pos rfl, lookupLabel]
      rw [if_neg (fun hh => h hh.symm), if_neg (fun hh => h hh.symm)]
    · simp only [setLabel, if_neg ha, lookupLabel]
      by_cases ha' : a = k'
      · simp [ha']
      · simp [ha', ih]

theorem readLabel_setLabel_self (ls : List (String × String)) (k v : String) :
    readLabel (some (setLabel ls k v)) k = v := by
  simp [readLabel, lookupLabel_setLabel_self]

/-- With a `GetRevision` oracle that answers NotFound forever, the
reconcile loop keeps retrying until `getRetries` hits the bound and
performs `MaxGetRetries - getRetries + 1` fetch attempts in total. -/
theorem reconcileLoop_allNotFound (c : RevClient) (revS : Revision)
    (h : ∀ n, c.getRevision n revS.name = .error ErrKind.notFound) :
    ∀ fuel gI uI gR uR, MaxGetRetries - gR < fuel → gR ≤ MaxGetRetries →
      reconcileLoop c revS gI uI gR uR fuel =
        (.err (.api ErrKind.notFound),
          List.replicate (MaxGetRetries - gR + 1) (.destGetRevision revS.name)) := by
  intro fuel
  induction fuel with
  | zero => intro gI uI gR uR hf _; omega
  | succ f ih =>
    intro gI uI gR uR hf hle
    by_cases hlt : gR < MaxGetRetries
    · have hstep : reconcileLoop c revS gI uI gR uR (f + 1) =
          ((reconcileLoop c revS (gI + 1) uI (gR + 1) uR f).1,
            .destGetRevision revS.name :: (reconcileLoop c revS (gI + 1) uI (gR + 1) uR f).2) := by
        simp [reconcileLoop, h gI, hlt]
      rw [hstep, ih (gI + 1) uI (gR + 1) uR (by omega) (by omega)]
      have hrep : MaxGetRetries - gR + 1 = (MaxGetRetries - (gR + 1) + 1) + 1 := by omega
      rw [hrep]
      simp [List.replicate_succ]
    · have hgR : gR = MaxGetRetries := by omega
      have hz : MaxGetRetries - gR = 0 := by omega
      simp [reconcileLoop, h gI, hlt, hz]

/-- The reconcile loop never calls `CreateRevision`. -/
theorem reconcileLoop_countP_create (c : RevClient) (revS : Revision) :
    ∀ fuel gI uI gR uR,
      (reconcileLoop c revS gI uI gR uR fuel).2.countP isCreateRevEvent = 0 := by
  intro fuel
  induction fuel with
  | zero => intro gI uI gR uR; simp [reconcileLoop]
  | succ f ih =>
    intro gI uI gR uR
    simp only [reconcileLoop]
    cases hg : c.getRevision gI revS.name with
    | error e =>
      by_cases hc : e = ErrKind.notFound ∧ gR < MaxGetRetries <;>
        simp [hc, List.countP_cons, isCreateRevEvent, ih]
    | ok r =>
      cases hl : r.labels with
      | none => simp [hl, isCreateRevEvent]
      | some ls =>
        cases hu : c.updateRevision uI with
        | none => simp [hl, hu, isCreateRevEvent]
        | some e =>
          by_cases hc : e = ErrKind.conflict ∧ uR < MaxUpdateRetries <;>
            simp [hl, hu, hc, List.countP_cons, isCreateRevEvent, ih]

/-- Every pass through the reconcile loop starts with a `GetRevision`
call, so with positive fuel the trace contains one. -/
theorem reconcileLoop_any_get (c : RevClient) (revS : Revision)
    (gI uI gR uR fuel : Nat) :
    (reconcileLoop c revS gI uI gR uR (fuel + 1)).2.any isGetRevEvent = true := by
  simp only [reconcileLoop]
  cases hg : c.getRevision gI revS.name with
  | error e =>
    by_cases hc : e = ErrKind.notFound ∧ gR < MaxGetRetries <;>
      simp [hc, isGetRevEvent]
  | ok r =>
    cases hl : r.labels with
    | none => simp [hl, isGetRevEvent]
    | some ls =>
      cases hu : c.updateRevision uI with
      | none => simp [hl, hu, isGetRevEvent]
      | some e =>
        by_cases hc : e = ErrKind.conflict ∧ uR < MaxUpdateRetries <;>
          simp [hl, hu, hc, isGetRevEvent]

/-- When the reconcile loop returns ok, its trace ends with the
`UpdateRevision` of some fetched revision whose labels were non-nil,
with exactly the generation label overwritten by the source's. -/
theorem reconcileLoop_ok_shape (c : RevClient) (revS : Revision) :
    ∀ fuel gI uI gR uR,
      (reconcileLoop c revS gI uI gR uR fuel).1 = .ok →
      ∃ n fetched ls tr',
        c.getRevision n revS.name = .ok fetched ∧
        fetched.labels = some ls ∧
        (reconcileLoop c revS gI uI gR uR fuel).2 =
          tr' ++ [.destUpdateRevision
            { fetched with labels := some (setLabel ls generationLabel
                (readLabel revS.labels generationLabel)) }] := by
  intro fuel
  induction fuel with
  | zero => intro gI uI gR uR h; simp [reconcileLoop] at h
  | succ f ih =>
    intro gI uI gR uR h
    simp only [reconcileLoop] at h ⊢
    cases hg : c.getRevision gI revS.name with
    | error e =>
      rw [hg] at h
      dsimp only at h ⊢
      by_cases hc : e = ErrKind.notFound ∧ gR < MaxGetRetries
      · rw [if_pos hc] at h ⊢
        obtain ⟨n, fetched, ls, tr', h1, h2, h3⟩ := ih (gI + 1) uI (gR + 1) uR h
        exact ⟨n, fetched, ls, .destGetRevision revS.name :: tr',
          h1, h2, by simp [h3]⟩
      · rw [if_neg hc] at h
        simp at h
    | ok r =>
      rw [hg] at h
      dsimp only at h ⊢
      cases hl : r.labels with
      | none => rw [hl] at h; simp at h
      | some ls =>
        rw [hl] at h
        dsimp only at h ⊢
        cases hu : c.updateRevision uI with
        | some e =>
          rw [hu] at h
          dsimp only at h ⊢
          by_cases hc : e = ErrKind.conflict ∧ uR < MaxUpdateRetries
          · rw [if_pos hc] at h ⊢
            obtain ⟨n, fetched, ls', tr', h1, h2, h3⟩ := ih (gI + 1) (uI + 1) gR (uR + 1) h
            refine ⟨n, fetched, ls', .destGetRevision revS.name ::
              .destUpdateRevision { r with labels := some (setLabel ls generationLabel
                (readLabel revS.labels generationLabel)) } :: tr', h1, h2, by simp [h3]⟩
          · rw [if_neg hc] at h
            simp at h
        | none =>
          rw [hu] at h
          dsimp only at h ⊢
          exact ⟨gI, r, ls, [.destGetRevision revS.name], hg, hl, rfl⟩

theorem filter_eq_nil_of_countP_zero {α} (p : α → Bool) (l : List α)
    (h : l.countP p = 0) : l.filter p = [] := by
  rw [List.filter_eq_nil_iff]
  exact fun a ha => by simpa using List.countP_eq_zero.mp h a ha

/-- The reconcile loop issues no source-cluster deletion. -/
theorem reconcileLoop_no_srcDelete (c : RevClient) (revS : Revision) :
    ∀ fuel gI uI gR uR,
      (reconcileLoop c revS gI uI gR uR fuel).2.countP isSrcDelete = 0 := by
  intro fuel
  induction fuel with
  | zero => intro gI uI gR uR; simp [reconcileLoop]
  | succ f ih =>
    intro gI uI gR uR
    simp only [reconcileLoop]
    cases hg : c.getRevision gI revS.name with
    | error e =>
      by_cases hc : e = ErrKind.notFound ∧ gR < MaxGetRetries <;>
        simp [hc, List.countP_cons, isSrcDelete, ih]
    | ok r =>
      cases hl : r.labels with
      | none => simp [hl, isSrcDelete]
      | some ls =>
        cases hu : c.updateRevision uI with
        | none => simp [hl, hu, isSrcDelete]
        | some e =>
          by_cases hc : e = ErrKind.conflict ∧ uR < MaxUpdateRetries <;>
            simp [hl, hu, hc, List.countP_cons, isSrcDelete, ih]

/-- `migrateRevision` issues no source-cluster deletion. -/
theorem migrateRevision_no_srcDelete (c : RevClient) (revS : Revision)
    (uid latest : String) :
    (migrateRevision c revS uid latest).2.countP isSrcDelete = 0 := by
  by_cases hn : revS.name ≠ latest
  · simp only [migrateRevision, if_pos hn]
    cases c.createRevision <;> simp [isSrcDelete]
  · simp only [migrateRevision, if_neg hn]
    exact reconcileLoop_no_srcDelete c revS revisionLoopFuel 0 0 0 0

/-- The revision replay loop issues no source-cluster deletion. -/
theorem replayRevisions_no_srcDelete (revCs : Nat → RevClient) (uid latest : String) :
    ∀ revs i, (replayRevisions revCs uid latest revs i).2.countP isSrcDelete = 0 := by
  intro revs
  induction revs with
  | nil => intro i; simp [replayRevisions]
  | cons r rs ih =>
    intro i
    simp only [replayRevisions]
    cases hm : (migrateRevision (revCs i) r uid latest).1 <;>
      simp [List.countP_append, migrateRevision_no_srcDelete, ih]

/-- The configuration fetch loop issues no source-cluster deletion. -/
theorem getConfigLoop_no_srcDelete (name : String) (resp : Nat → Except ErrKind Config) :
    ∀ fuel idx retries,
      (getConfigLoop name resp idx retries fuel).2.countP isSrcDelete = 0 := by
  intro fuel
  induction fuel with
  | zero => intro idx retries; simp [getConfigLoop]
  | succ f ih =>
    intro idx retries
    simp only [getConfigLoop]
    cases hr : resp idx with
    | error e =>
      by_cases hc : e = ErrKind.notFound ∧ retries < MaxGetRetries <;>
        simp [hc, List.countP_cons, isSrcDelete, ih]
    | ok cfg => simp [isSrcDelete]

/-- `createService` issues no source-cluster deletion. -/
theorem createService_no_srcDelete (c : SvcClient) (name : String) (force : Bool) :
    (createService c name force).2.countP isSrcDelete = 0 := by
  simp only [createService]
  cases hx : c.serviceExistsD with
  | error e => simp [isSrcDelete]
  | ok ex =>
    cases ex <;> cases force <;> cases hcr : c.createServiceD <;>
      simp [isSrcDelete]

/-- `getOrCreateNamespace` issues no source-cluster deletion. -/
theorem getOrCreateNamespace_no_srcDelete (c : NsClient) (ns : String) :
    (getOrCreateNamespace c ns).2.countP isSrcDelete = 0 := by
  simp only [getOrCreateNamespace]
  cases hg : c.getNamespaceD with
  | some e => simp [isSrcDelete]
  | none => cases hc : c.createNamespaceD <;> simp [isSrcDelete]

/-- One service's migration issues no source-cluster deletion. -/
theorem migrateOneService_no_srcDelete (c : SvcClient) (name : String)
    (force : Bool) (cfgFuel : Nat) :
    (migrateOneService c name force cfgFuel).2.countP isSrcDelete = 0 := by
  have hcs := createService_no_srcDelete c name force
  have hgc := getConfigLoop_no_srcDelete name c.getConfigD cfgFuel 0 0
  simp only [migrateOneService]
  cases hcm : c.getConfigMapS with
  | error e =>
    by_cases hne : e = ErrKind.notFound
    · subst hne
      simp only [if_pos rfl]
      cases hcso : (createService c name force).1 with
      | some e2 => simp [isSrcDelete, List.countP_append, hcs]
      | none =>
        cases hgs : c.getServiceD with
        | error e3 => simp [isSrcDelete, List.countP_append, hcs]
        | ok sd =>
          cases hgc1 : (getConfigLoop name c.getConfigD 0 0 cfgFuel).1 with
          | none => simp [isSrcDelete, List.countP_append, hcs, hgc]
          | some r =>
            cases r with
            | error e4 => simp [isSrcDelete, List.countP_append, hcs, hgc]
            | ok cfg =>
              cases hlr : c.listRevisionsS with
              | error e5 => simp [isSrcDelete, List.countP_append, hcs, hgc]
              | ok revs =>
                simp [isSrcDelete, List.countP_append, hcs, hgc,
                  replayRevisions_no_srcDelete]
    · simp [hne, isSrcDelete]
  | ok cm =>
    cases hcc : c.createConfigMapD with
    | some e2 => simp [isSrcDelete]
    | none =>
      cases hcso : (createService c name force).1 with
      | some e2 => simp [isSrcDelete, List.countP_append, hcs]
      | none =>
        cases hgs : c.getServiceD with
        | error e3 => simp [isSrcDelete, List.countP_append, hcs]
        | ok sd =>
          cases hgc1 : (getConfigLoop name c.getConfigD 0 0 cfgFuel).1 with
          | none => simp [isSrcDelete, List.countP_append, hcs, hgc]
          | some r =>
            cases r with
            | error e4 => simp [isSrcDelete, List.countP_append, hcs, hgc]
            | ok cfg =>
              cases hlr : c.listRevisionsS with
              | error e5 => simp [isSrcDelete, List.countP_append, hcs, hgc]
              | ok revs =>
                simp [isSrcDelete, List.countP_append, hcs, hgc,
                  replayRevisions_no_srcDelete]

/-- The whole migration pass issues no source-cluster deletion. -/
theorem migrateAllServices_no_srcDelete (svcC : Nat → SvcClient) (force : Bool)
    (cfgFuel : Nat) :
    ∀ svcs i, (migrateAllServices svcC force cfgFuel svcs i).2.countP isSrcDelete = 0 := by
  intro svcs
  induction svcs with
  | nil => intro i; simp [migrateAllServices]
  | cons s ss ih =>
    intro i
    simp only [migrateAllServices]
    cases hm : (migrateOneService (svcC i) s force cfgFuel).1 <;>
      simp [List.countP_append, migrateOneService_no_srcDelete, ih]

/-- With every per-name delete succeeding, the deletion loop deletes
exactly the listed services, in order. -/
theorem deleteServicesLoop_success (delResp : String → Option ErrKind)
    (h : ∀ s, delResp s = none) :
    ∀ ss, deleteServicesLoop delResp ss = (none, ss.map Event.srcDeleteService) := by
  intro ss
  induction ss with
  | nil => simp [deleteServicesLoop]
  | cons s ss ih => simp [deleteServicesLoop, h s, ih]

/-! ## Claim theorems -/

/-- C3 (counterexample): with a `GetRevision` oracle that answers
NotFound on every attempt, `migrateRevision` on the reconcile path does
fail with that error — but after 17 fetch attempts, not after exactly
`MaxGetRetries = 16` as the claim states: the loop retries while
`getRetries < MaxGetRetries`, so the initial attempt is followed by
`MaxGetRetries` retries. -/
theorem migrateRevision_sixteen_attempts_refuted :
    (migrateRevision cAlwaysNotFound revLatest "uid-1" "foo-00002").1 =
      .err (.api ErrKind.notFound) ∧
    (migrateRevision cAlwaysNotFound revLatest "uid-1" "foo-00002").2.countP isGetRevEvent ≠
      MaxGetRetries := by
  decide

/-- C3 (amended): on the reconcile path, if `GetRevision` returns
NotFound on every attempt, `migrateRevision` returns that NotFound
error after exactly `MaxGetRetries + 1` attempts of `GetRevision` (the
initial attempt plus `MaxGetRetries` retries) — not before and not
after. -/
theorem migrateRevision_get_retry_exhaustion (c : RevClient) (revS : Revision)
    (uid latest : String) (hname : revS.name = latest)
    (h : ∀ n, c.getRevision n revS.name = .error ErrKind.notFound) :
    migrateRevision c revS uid latest =
      (.err (.api ErrKind.notFound),
        List.replicate (MaxGetRetries + 1) (.destGetRevision revS.name)) ∧
    (migrateRevision c revS uid latest).2.countP isGetRevEvent = MaxGetRetries + 1 := by
  have hmain : migrateRevision c revS uid latest =
      (.err (.api ErrKind.notFound),
        List.replicate (MaxGetRetries + 1) (.destGetRevision revS.name)) := by
    have := reconcileLoop_allNotFound c revS h revisionLoopFuel 0 0 0 0
      (by decide) (by decide)
    simpa [migrateRevision, hname] using this
  refine ⟨hmain, ?_⟩
  rw [hmain]
  exact countP_replicate_true isGetRevEvent (.destGetRevision revS.name) rfl _

/-- C3 (witness for the amended theorem at a concrete input). -/
theorem migrateRevision_get_retry_exhaustion_witness :
    migrateRevision cAlwaysNotFound revLatest "uid-1" "foo-00002" =
      (.err (.api ErrKind.notFound),
        List.replicate (MaxGetRetries + 1) (.destGetRevision "foo-00002")) ∧
    (migrateRevision cAlwaysNotFound revLatest "uid-1" "foo-00002").2.countP isGetRevEvent =
      MaxGetRetries + 1 :=
  migrateRevision_get_retry_exhaustion cAlwaysNotFound revLatest "uid-1" "foo-00002"
    rfl (fun _ => rfl)

/-- C8 (counterexample): on the fresh-create path, a `CreateRevision`
failure classified NotFound is NOT retried: at this concrete input the
revision name differs from the latest-created name, `CreateRevision`
answers NotFound, and `migrateRevision` immediately returns the error
after exactly one `CreateRevision` call. -/
theorem migrateRevision_create_retry_refuted :
    migrateRevision cCreateNotFound revEarly "uid-1" "foo-00002" =
      (.err (.api ErrKind.notFound), [.destCreateRevision "foo-00001" "uid-1"]) := by
  decide

/-- C8 (amended): on the fresh-create path, EVERY `CreateRevision`
failure — NotFound and Conflict included — immediately aborts the
service's migration with that error; exactly one `CreateRevision`
attempt is made and no retry of any kind occurs. -/
theorem migrateRevision_create_no_retry (c : RevClient) (revS : Revision)
    (uid latest : String) (e : ErrKind)
    (hname : revS.name ≠ latest) (hcr : c.createRevision = some e) :
    migrateRevision c revS uid latest =
      (.err (.api e), [.destCreateRevision revS.name uid]) := by
  simp [migrateRevision, hname, hcr]

/-- C8 (witness for the amended theorem at a concrete input). -/
theorem migrateRevision_create_no_retry_witness :
    migrateRevision cCreateNotFound revEarly "uid-1" "foo-00002" =
      (.err (.api ErrKind.notFound), [.destCreateRevision "foo-00001" "uid-1"]) :=
  migrateRevision_create_no_retry cCreateNotFound revEarly "uid-1" "foo-00002"
    ErrKind.notFound (by decide) rfl

/-- One unfolding step of the reconcile loop in the case where the fetch
succeeds but the fetched revision carries a nil label map: the label
assignment panics before any `UpdateRevision`. -/
theorem reconcileLoop_nil_labels_step (c : RevClient) (revS : Revision)
    (gI uI gR uR fuel : Nat) (r : Revision)
    (hget : c.getRevision gI revS.name = .ok r) (hnil : r.labels = none) :
    reconcileLoop c revS gI uI gR uR (fuel + 1) =
      (.panicNilMap, [.destGetRevision revS.name]) := by
  simp [reconcileLoop, hget, hnil]

/-- C10: on the reconcile path the source assigns into the fetched
revision's label map without a nil check
(`revision.ObjectMeta.Labels[...] = ...`), so when the first
`GetRevision` succeeds but returns a revision whose label map is nil,
`migrateRevision` panics (assignment to entry in nil map) instead of
returning an error, and no `UpdateRevision` is ever issued. -/
theorem migrateRevision_nil_labels_panic (c : RevClient) (revS : Revision)
    (uid latest : String) (r : Revision)
    (hname : revS.name = latest)
    (hget : c.getRevision 0 revS.name = .ok r)
    (hnil : r.labels = none) :
    (migrateRevision c revS uid latest).1 = .panicNilMap ∧
    (migrateRevision c revS uid latest).2.countP isUpdateRevEvent = 0 := by
  have hmain : migrateRevision c revS uid latest =
      (.panicNilMap, [.destGetRevision revS.name]) := by
    have h1 : migrateRevision c revS uid latest = reconcileLoop c revS 0 0 0 0 revisionLoopFuel := by
      simp [migrateRevision, hname]
    rw [h1, show revisionLoopFuel = 32 + 1 from rfl]
    exact reconcileLoop_nil_labels_step c revS 0 0 0 0 32 r hget hnil
  rw [hmain]
  simp [isUpdateRevEvent]

/-- C10 (witness at a concrete input). -/
theorem migrateRevision_nil_labels_panic_witness :
    (migrateRevision cNilLabels revLatest "uid-1" "foo-00002").1 = .panicNilMap ∧
    (migrateRevision cNilLabels revLatest "uid-1" "foo-00002").2.countP isUpdateRevEvent = 0 :=
  migrateRevision_nil_labels_panic cNilLabels revLatest "uid-1" "foo-00002"
    { name := "foo-00002", labels := none, rest := "spec-auto" } rfl rfl rfl

/-- C4: the `retries` counter of `getConfig` is never incremented, so
when `GetConfig` answers NotFound on every attempt the loop never
terminates: for EVERY fuel bound the embedding is still looping (first
component `none`) and has issued one `GetConfig` call per iteration —
the error is never surfaced, contradicting the documented bound of 16
attempts. -/
theorem getConfig_notFound_loops_forever (serviceName : String)
    (resp : Nat → Except ErrKind Config)
    (h : ∀ n, resp n = .error ErrKind.notFound) :
    ∀ fuel idx, (getConfigLoop serviceName resp idx 0 fuel).1 = none ∧
      (getConfigLoop serviceName resp idx 0 fuel).2.length = fuel := by
  intro fuel
  induction fuel with
  | zero => intro idx; simp [getConfigLoop]
  | succ f ih =>
    intro idx
    simp [getConfigLoop, h idx, MaxGetRetries, ih (idx + 1)]

/-- C4 (witness at a concrete input and bound). -/
theorem getConfig_notFound_loops_forever_witness :
    (getConfigLoop "foo" cfgAlwaysNotFound 0 0 50).1 = none ∧
    (getConfigLoop "foo" cfgAlwaysNotFound 0 0 50).2.length = 50 :=
  getConfig_notFound_loops_forever "foo" cfgAlwaysNotFound (fun _ => rfl) 50 0

/-- C5: `getOrCreateNamespace` treats a missing destination namespace as
FATAL: `if err != nil { return err }` fires for a NotFound too, so when
the namespace Get answers NotFound the function returns that error and
never calls Create (the `!namespaceExists` branch is dead code). -/
theorem getOrCreateNamespace_missing_ns_fatal (c : NsClient) (ns : String)
    (h : c.getNamespaceD = some ErrKind.notFound) :
    getOrCreateNamespace c ns = (some ErrKind.notFound, [.destGetNamespace ns]) := by
  simp [getOrCreateNamespace, h]

/-- C5 (witness at a concrete input). -/
theorem getOrCreateNamespace_missing_ns_fatal_witness :
    getOrCreateNamespace nsMissing "ns-d" =
      (some ErrKind.notFound, [.destGetNamespace "ns-d"]) :=
  getOrCreateNamespace_missing_ns_fatal nsMissing "ns-d" rfl

/-- C6 (counterexample): with the destination already holding service
`foo`, no force, and the source holding configmap `foo-config`, the
migration attempt does fail with the "already exists" error — but the
destination is NOT byte-for-byte unchanged: the `Run` loop copies the
configmap to the destination BEFORE the service-existence check, so a
destination mutation (`CreateConfigMap`) has already happened. -/
theorem migrateOneService_untouched_destination_refuted :
    (migrateOneService svcExistsWithConfigMap "foo" false 40).1 =
      .err (.alreadyExists "foo") ∧
    (migrateOneService svcExistsWithConfigMap "foo" false 40).2.countP isDestMutation ≠ 0 := by
  decide

/-- C6 (amended): when the destination already has a same-named service
and force is not requested, the service's migration fails and no
destination service, revision, configuration or namespace is created,
deleted or updated for it — the only possible destination mutation is
the copy of the source configmap, which the loop body performs before
the existence check; in particular, when the source service has no
configmap, the attempt fails with the "already exists" error and the
destination is completely unchanged. -/
theorem migrateOneService_already_exists (c : SvcClient) (name : String) (cfgFuel : Nat)
    (hex : c.serviceExistsD = .ok true) :
    (∀ ev ∈ (migrateOneService c name false cfgFuel).2,
      isDestMutation ev = true → ev = .destCreateConfigMap (generateConfigmapName name)) ∧
    (c.getConfigMapS = .error ErrKind.notFound →
      migrateOneService c name false cfgFuel =
        (.err (.alreadyExists name),
          [.srcGetConfigMap (generateConfigmapName name), .destServiceExistsCheck name])) := by
  have hcs : createService c name false =
      (some (.alreadyExists name), [.destServiceExistsCheck name]) := by
    simp [createService, hex]
  constructor
  · intro ev hev hmut
    cases hcm : c.getConfigMapS with
    | error e =>
      by_cases hne : e = ErrKind.notFound
      · subst hne
        simp [migrateOneService, hcm, hcs] at hev
        rcases hev with h | h <;> subst h <;> simp [isDestMutation] at hmut
      · simp [migrateOneService, hcm, hne] at hev
        subst hev
        simp [isDestMutation] at hmut
    | ok cm =>
      cases hcc : c.createConfigMapD with
      | some e2 =>
        simp [migrateOneService, hcm, hcc] at hev
        rcases hev with h | h
        · subst h; simp [isDestMutation] at hmut
        · subst h; rfl
      | none =>
        simp [migrateOneService, hcm, hcc, hcs] at hev
        rcases hev with h | h | h
        · subst h; simp [isDestMutation] at hmut
        · subst h; rfl
        · subst h; simp [isDestMutation] at hmut
  · intro hcm
    simp [migrateOneService, hcm, hcs]

/-- C6 (witness for the amended theorem: no source configmap, service
exists, no force — already-exists failure, destination untouched). -/
theorem migrateOneService_already_exists_witness :
    migrateOneService svcExistsNoConfigMap "foo" false 40 =
      (.err (.alreadyExists "foo"),
        [.srcGetConfigMap "foo-config", .destServiceExistsCheck "foo"]) :=
  (migrateOneService_already_exists svcExistsNoConfigMap "foo" 40 rfl).2 rfl

/-- C9: source services are deleted only by `deleteAllServices`, which
the driver runs strictly after the whole migration pass, and only when
that pass succeeded: (1) `deleteAllServices` without the delete flag
performs no call at all; (2) a run without the delete flag contains no
source deletion; (3) a run whose migration pass failed contains no
source deletion whatever the flag; (4) in a successful run the trace is
the namespace step, the source listing, the whole migration pass (which
itself contains no source deletion), and only then the deletion phase;
(5) with the delete flag, after a fully successful pass, every service
of the source listing is deleted. -/
theorem runDriver_source_deletion_contract (nsC : NsClient) (dc : DriverClient)
    (nsD : String) (force : Bool) (cfgFuel : Nat) :
    (deleteAllServices dc.listServicesS2 dc.deleteServiceS false = (none, [])) ∧
    ((runDriver nsC dc nsD force false cfgFuel).2.countP isSrcDelete = 0) ∧
    (∀ del svcs, dc.listServicesS = .ok svcs →
      (migrateAllServices dc.svcClient force cfgFuel svcs 0).1 ≠ .ok →
      (runDriver nsC dc nsD force del cfgFuel).2.countP isSrcDelete = 0) ∧
    (∀ del svcs, (getOrCreateNamespace nsC nsD).1 = none →
      dc.listServicesS = .ok svcs →
      (migrateAllServices dc.svcClient force cfgFuel svcs 0).1 = .ok →
      (runDriver nsC dc nsD force del cfgFuel).2 =
        (getOrCreateNamespace nsC nsD).2 ++ [.srcListServices] ++
          (migrateAllServices dc.svcClient force cfgFuel svcs 0).2 ++
          (deleteAllServices dc.listServicesS2 dc.deleteServiceS del).2 ∧
      (migrateAllServices dc.svcClient force cfgFuel svcs 0).2.countP isSrcDelete = 0) ∧
    (∀ svcs svcs2, (getOrCreateNamespace nsC nsD).1 = none →
      dc.listServicesS = .ok svcs →
      (migrateAllServices dc.svcClient force cfgFuel svcs 0).1 = .ok →
      dc.listServicesS2 = .ok svcs2 →
      (∀ s, dc.deleteServiceS s = none) →
      (runDriver nsC dc nsD force true cfgFuel).2.filter isSrcDelete =
        svcs2.map Event.srcDeleteService) := by
  refine ⟨by simp [deleteAllServices], ?_, ?_, ?_, ?_⟩
  · simp only [runDriver]
    cases hns : (getOrCreateNamespace nsC nsD).1 with
    | some e => simpa using getOrCreateNamespace_no_srcDelete nsC nsD
    | none =>
      cases hls : dc.listServicesS with
      | error e =>
        simp [List.countP_append, List.countP_cons, isSrcDelete,
          getOrCreateNamespace_no_srcDelete]
      | ok svcs =>
        cases hp : (migrateAllServices dc.svcClient force cfgFuel svcs 0).1 <;>
          simp [hp, List.countP_append, List.countP_cons, isSrcDelete, deleteAllServices,
            getOrCreateNamespace_no_srcDelete, migrateAllServices_no_srcDelete]
  · intro del svcs hls hfail
    simp only [runDriver]
    cases hns : (getOrCreateNamespace nsC nsD).1 with
    | some e => simpa using getOrCreateNamespace_no_srcDelete nsC nsD
    | none =>
      rw [hls]
      cases hp : (migrateAllServices dc.svcClient force cfgFuel svcs 0).1 with
      | ok => exact absurd hp hfail
      | err e =>
        simp [hp, List.countP_append, List.countP_cons, isSrcDelete,
          getOrCreateNamespace_no_srcDelete, migrateAllServices_no_srcDelete]
      | panicNilMap =>
        simp [hp, List.countP_append, List.countP_cons, isSrcDelete,
          getOrCreateNamespace_no_srcDelete, migrateAllServices_no_srcDelete]
      | outOfFuel =>
        simp [hp, List.countP_append, List.countP_cons, isSrcDelete,
          getOrCreateNamespace_no_srcDelete, migrateAllServices_no_srcDelete]
  · intro del svcs hns hls hp
    simp only [runDriver, hns, hls, hp]
    exact ⟨by simp, migrateAllServices_no_srcDelete dc.svcClient force cfgFuel svcs 0⟩
  · intro svcs svcs2 hns hls hp hls2 hdel
    simp only [runDriver, hns, hls, hp]
    have hda : deleteAllServices dc.listServicesS2 dc.deleteServiceS true =
        (none, .srcListServices :: svcs2.map Event.srcDeleteService) := by
      simp [deleteAllServices, hls2, deleteServicesLoop_success dc.deleteServiceS hdel]
    rw [hda]
    rw [List.filter_append, List.filter_append, List.filter_append]
    rw [filter_eq_nil_of_countP_zero _ _ (getOrCreateNamespace_no_srcDelete nsC nsD),
      filter_eq_nil_of_countP_zero _ _
        (migrateAllServices_no_srcDelete dc.svcClient force cfgFuel svcs 0)]
    have hmap : (svcs2.map Event.srcDeleteService).filter isSrcDelete =
        svcs2.map Event.srcDeleteService := by
      rw [List.filter_eq_self]
      intro a ha
      obtain ⟨s, _, rfl⟩ := List.mem_map.mp ha
      rfl
    simp [isSrcDelete, hmap]

/-- C9 (witness: a concrete fully successful run over one source
service with the delete flag deletes exactly that service, strictly
after the pass). -/
theorem runDriver_source_deletion_contract_witness :
    (runDriver nsFound dcHappy "ns-d" false true 40).2.filter isSrcDelete =
      [Event.srcDeleteService "foo"] :=
  (runDriver_source_deletion_contract nsFound dcHappy "ns-d" false 40).2.2.2.2
    ["foo"] ["foo"] rfl rfl (by decide) rfl (fun _ => rfl)

/-- C7: in `createService` the result of `DeleteService` is discarded
(the source never assigns it to `err`; the `if err != nil` after it
re-checks the nil error of `ServiceExists`), so when the service exists
and force is given, the outcome is determined solely by `CreateService`
— a delete failure neither aborts nor prevents the create, which is
always attempted. -/
theorem createService_delete_error_dropped (c : SvcClient) (name : String) (e : ErrKind)
    (hex : c.serviceExistsD = .ok true) (hdel : c.deleteServiceD = some e) :
    createService c name true =
      (c.createServiceD.map MErr.api,
        [.destServiceExistsCheck name, .destDeleteService name, .destCreateService name]) := by
  simp only [createService, hex]
  cases c.createServiceD <;> simp

/-- C1: `migrateRevision` follows exactly one of two disjoint
strategies, selected by comparing the revision's name against the
captured latest-created-revision name (a fixed parameter, never
re-read): a differing name performs exactly one `CreateRevision` call
and nothing else (never an update); an equal name performs no
`CreateRevision` at all and always issues a `GetRevision` (the
reconcile path); over any history in which exactly one revision bears
the captured name, exactly one revision follows the reconcile path. -/
theorem migrateRevision_strategy_dispatch (c : RevClient) (revisionS : Revision)
    (uid latest : String) :
    (revisionS.name ≠ latest →
      (migrateRevision c revisionS uid latest).2 =
        [.destCreateRevision revisionS.name uid]) ∧
    (revisionS.name = latest →
      (migrateRevision c revisionS uid latest).2.countP isCreateRevEvent = 0 ∧
      (migrateRevision c revisionS uid latest).2.any isGetRevEvent = true) ∧
    (∀ (revs : List Revision) (f : Revision → RevClient),
      revs.countP (fun r => r.name == latest) = 1 →
      revs.countP
        (fun r => (migrateRevision (f r) r uid latest).2.any isGetRevEvent) = 1) := by
  refine ⟨?_, ?_, ?_⟩
  · intro hname
    simp only [migrateRevision, if_pos hname]
    cases c.createRevision <;> simp
  · intro hname
    have h1 : migrateRevision c revisionS uid latest =
        reconcileLoop c revisionS 0 0 0 0 revisionLoopFuel := by
      simp [migrateRevision, hname]
    rw [h1, show revisionLoopFuel = 32 + 1 from rfl]
    exact ⟨reconcileLoop_countP_create c revisionS (32 + 1) 0 0 0 0,
      reconcileLoop_any_get c revisionS 0 0 0 0 32⟩
  · intro revs f hcount
    rw [List.countP_congr (q := fun r => r.name == latest) ?_]
    · exact hcount
    · intro r _
      by_cases hn : r.name = latest
      · have h1 : migrateRevision (f r) r uid latest =
            reconcileLoop (f r) r 0 0 0 0 revisionLoopFuel := by
          simp [migrateRevision, hn]
        rw [h1, show revisionLoopFuel = 32 + 1 from rfl]
        simp [reconcileLoop_any_get (f r) r 0 0 0 0 32, hn]
      · have h1 : (migrateRevision (f r) r uid latest).2 =
            [.destCreateRevision r.name uid] := by
          simp only [migrateRevision, if_pos hn]
          cases (f r).createRevision <;> simp
        simp [h1, isGetRevEvent, hn]

/-- C1 (witness at concrete inputs: `foo-00001` takes the create path,
and over the two-revision history exactly one revision — `foo-00002` —
takes the reconcile path). -/
theorem migrateRevision_strategy_dispatch_witness :
    (migrateRevision cHappy revEarly "uid-1" "foo-00002").2 =
      [.destCreateRevision "foo-00001" "uid-1"] ∧
    ([revEarly, revLatest].countP
      (fun r => (migrateRevision cHappy r "uid-1" "foo-00002").2.any isGetRevEvent) = 1) :=
  ⟨(migrateRevision_strategy_dispatch cHappy revEarly "uid-1" "foo-00002").1 (by decide),
    (migrateRevision_strategy_dispatch cHappy revLatest "uid-1" "foo-00002").2.2
      [revEarly, revLatest] (fun _ => cHappy) (by decide)⟩

/-- C2: on a successful reconcile, the revision submitted to
`UpdateRevision` (the last call of the trace) is exactly the revision
some `GetRevision` returned, with only its `configurationGeneration`
label overwritten by the source revision's: name and all remaining
fields are unchanged, every other label key is unchanged, and the
written generation label equals the source revision's. -/
theorem migrateRevision_reconcile_frame (c : RevClient) (revS : Revision)
    (uid latest : String)
    (hname : revS.name = latest)
    (hok : (migrateRevision c revS uid latest).1 = .ok) :
    ∃ n fetched ls submitted tr',
      c.getRevision n revS.name = .ok fetched ∧
      fetched.labels = some ls ∧
      submitted = { fetched with labels := some (setLabel ls generationLabel
        (readLabel revS.labels generationLabel)) } ∧
      (migrateRevision c revS uid latest).2 = tr' ++ [.destUpdateRevision submitted] ∧
      submitted.name = fetched.name ∧
      submitted.rest = fetched.rest ∧
      readLabel submitted.labels generationLabel = readLabel revS.labels generationLabel ∧
      (∀ k, k ≠ generationLabel →
        lookupLabel (setLabel ls generationLabel (readLabel revS.labels generationLabel)) k =
          lookupLabel ls k) := by
  have h1 : migrateRevision c revS uid latest =
      reconcileLoop c revS 0 0 0 0 revisionLoopFuel := by
    simp [migrateRevision, hname]
  rw [h1] at hok ⊢
  obtain ⟨n, fetched, ls, tr', hg, hl, htr⟩ :=
    reconcileLoop_ok_shape c revS revisionLoopFuel 0 0 0 0 hok
  refine ⟨n, fetched, ls, _, tr', hg, hl, rfl, htr, rfl, rfl, ?_, ?_⟩
  · exact readLabel_setLabel_self ls generationLabel _
  · intro k hk
    exact lookupLabel_setLabel_other ls generationLabel _ k hk

/-- C2 (witness at a concrete input: the happy-path reconcile of
`foo-00002`). -/
theorem migrateRevision_reconcile_frame_witness :
    ∃ n fetched ls submitted tr',
      cHappy.getRevision n revLatest.name = .ok fetched ∧
      fetched.labels = some ls ∧
      submitted = { fetched with labels := some (setLabel ls generationLabel
        (readLabel revLatest.labels generationLabel)) } ∧
      (migrateRevision cHappy revLatest "uid-1" "foo-00002").2 =
        tr' ++ [.destUpdateRevision submitted] ∧
      submitted.name = fetched.name ∧
      submitted.rest = fetched.rest ∧
      readLabel submitted.labels generationLabel = readLabel revLatest.labels generationLabel ∧
      (∀ k, k ≠ generationLabel →
        lookupLabel (setLabel ls generationLabel
          (readLabel revLatest.labels generationLabel)) k = lookupLabel ls k) :=
  migrateRevision_reconcile_frame cHappy revLatest "uid-1" "foo-00002" rfl (by decide)

/-- C7 (witness at a concrete input: the delete fails with a non-NotFound
error, yet the create is attempted and succeeds). -/
theorem createService_delete_error_dropped_witness :
    createService svcExistsDeleteFails "foo" true =
      ((svcExistsDeleteFails.createServiceD).map MErr.api,
        [.destServiceExistsCheck "foo", .destDeleteService "foo", .destCreateService "foo"]) :=
  createService_delete_error_dropped svcExistsDeleteFails "foo" ErrKind.other rfl rfl

end KnMigrate
